import Mathlib

set_option maxRecDepth 100000

/-!
A shallow embedding of the K-language interpreter (`src/k_interpreter.py`).

Python runtime values reachable by the interpreter's restricted expression
evaluator are integers, floats, booleans, strings and `None`.  Floats are
modelled exactly as rationals (no claim below observes IEEE rounding).
-/

namespace KLang

/-- A Python runtime value, as the K evaluator can produce it. -/
inductive Value where
  | vInt  (i : Int)
  | vFloat (q : Rat)
  | vBool (b : Bool)
  | vStr  (s : String)
  | vNone
deriving DecidableEq, Repr

/-- `isinstance(v, int)` — in Python a `bool` is an `int`. -/
def pyIsInstInt : Value → Bool
  | .vInt _ => true
  | .vBool _ => true
  | _ => false

/-- `isinstance(v, float)`. -/
def pyIsInstFloat : Value → Bool
  | .vFloat _ => true
  | _ => false

/-- `isinstance(v, bool)`. -/
def pyIsInstBool : Value → Bool
  | .vBool _ => true
  | _ => false

/-- `isinstance(v, str)`. -/
def pyIsInstStr : Value → Bool
  | .vStr _ => true
  | _ => false

/-- `type(v).__name__` for the modelled values. -/
def pyTypeName : Value → String
  | .vInt _ => "int"
  | .vFloat _ => "float"
  | .vBool _ => "bool"
  | .vStr _ => "str"
  | .vNone => "NoneType"

/-- The integer behind an int-like Python value (`True` counts as `1`). -/
def intOfValue : Value → Int
  | .vInt i => i
  | .vBool b => if b then 1 else 0
  | _ => 0

/-- Python `str.lower`, restricted to the ASCII range K identifiers live in
(`\w` word characters): exactly core's `Char.toLower` on each character. -/
def strLower (s : String) : String :=
  ⟨s.data.map Char.toLower⟩

/-- Python truthiness (`bool(v)`), used by `operator.not_`. -/
def pyTruthy : Value → Bool
  | .vInt i => i ≠ 0
  | .vFloat q => q ≠ 0
  | .vBool b => b
  | .vStr s => s ≠ ""
  | .vNone => false

/-- A variable record as stored by the interpreter:
`{'type': ..., 'value': ..., 'const': ...}` (`assign_variable`). -/
structure VarData where
  type : String
  value : Value
  const : Bool
deriving DecidableEq, Repr

/-- Lookup in one scope dictionary (Python `dict` keyed by the name). -/
def lookupA : List (String × VarData) → String → Option VarData
  | [], _ => none
  | (k, v) :: rest, key => if k = key then some v else lookupA rest key

/-- Python `d[k] = v` on an insertion-ordered dict: replace the (unique)
occurrence in place when the key is present, append otherwise. -/
def updateA : List (String × VarData) → String → VarData → List (String × VarData)
  | [], key, v => [(key, v)]
  | (k0, v0) :: rest, key, v =>
    if k0 = key then (key, v) :: rest else (k0, v0) :: updateA rest key v

/-- The interpreter state: `self.global_variables` and
`self.local_variables_stack`.  The innermost scope is the HEAD of the list
here; the Python list appends new scopes at the tail and iterates the stack
with `reversed`, which is the same order. -/
structure KState where
  global_variables : List (String × VarData)
  local_variables_stack : List (List (String × VarData))
deriving DecidableEq, Repr

/-- The state a fresh `KInterpreter()` starts from. -/
def initState : KState := ⟨[], []⟩

/-- The local-scope part of `get_variable_info`: scan scopes innermost first. -/
def lookupLocals : List (List (String × VarData)) → String → Option VarData
  | [], _ => none
  | scope :: rest, key =>
    match lookupA scope key with
    | some v => some v
    | none => lookupLocals rest key

/-- `get_variable_info`: locals innermost-to-outermost, then globals. -/
def get_variable_info (st : KState) (var_name : String) : Option VarData :=
  match lookupLocals st.local_variables_stack var_name with
  | some v => some v
  | none => lookupA st.global_variables var_name

/-- `assign_variable`: `private` binds into the innermost local scope when one
is active, else (and for non-private bindings always) into the globals. -/
def assign_variable (st : KState) (var_name var_type : String) (value : Value)
    (is_private is_const : Bool) : KState :=
  let var_data : VarData := ⟨var_type, value, is_const⟩
  if is_private then
    match st.local_variables_stack with
    | [] => { st with global_variables := updateA st.global_variables var_name var_data }
    | top :: rest =>
      { st with local_variables_stack := updateA top var_name var_data :: rest }
  else
    { st with global_variables := updateA st.global_variables var_name var_data }

/-! ### The expression AST

`evaluate_expression` feeds the (invert-rewritten) text to Python's
`ast.parse` and walks the tree with `_evaluate_ast`.  The parser lives in the
Python standard library, outside this repository, so an expression is
represented here by its parse outcome: `Option Expr`, where `none` stands for
text `ast.parse` rejects.  `Expr` covers every node shape `_evaluate_ast`
inspects; `other` stands for any further Python expression node (comparison,
boolean operator, attribute access, subscript, lambda, ...), carrying the
node's class name for the error message. -/

/-- Python's binary-operator AST nodes. -/
inductive BOp where
  | add | sub | mult | matmult | div | mod | pow
  | lshift | rshift | bitor | bitxor | bitand | floordiv
deriving DecidableEq, Repr

/-- Membership of the binary node in `self.operators` (`KInterpreter.__init__`):
the dict maps Add, Sub, Mult, Div, Mod, Pow and BitXor. -/
def bopSupported : BOp → Bool
  | .add | .sub | .mult | .div | .mod | .pow | .bitxor => true
  | _ => false

/-- `op_type.__name__` for the binary nodes. -/
def bopPyName : BOp → String
  | .add => "Add" | .sub => "Sub" | .mult => "Mult" | .matmult => "MatMult"
  | .div => "Div" | .mod => "Mod" | .pow => "Pow" | .lshift => "LShift"
  | .rshift => "RShift" | .bitor => "BitOr" | .bitxor => "BitXor"
  | .bitand => "BitAnd" | .floordiv => "FloorDiv"

/-- Python's unary-operator AST nodes. -/
inductive UOp where
  | uadd | usub | unot | invert
deriving DecidableEq, Repr

/-- Membership of the unary node in `self.operators`: USub, UAdd, Not and
Invert are all present, so every Python unary operator is supported. -/
def uopSupported : UOp → Bool
  | _ => true

mutual

/-- The expression nodes `_evaluate_ast` can receive. -/
inductive Expr where
  | num (i : Int)
  | fnum (q : Rat)
  | strLit (s : String)
  | constBool (b : Bool)
  | constNone
  | binOp (op : BOp) (l r : Expr)
  | unaryOp (op : UOp) (e : Expr)
  | name (id : String)
  | call (fn : String) (args : ExprList)
  | callNonName
  | other (pyNodeName : String)

/-- A call's argument list (`node.args`). -/
inductive ExprList where
  | nil
  | cons (e : Expr) (es : ExprList)

end

/-! ### The Python operators behind the dispatch table

`self.operators` maps the whitelisted nodes to functions of the `operator`
module; these definitions model those Python operators on the reachable
values.  Floats are exact rationals; `%`-formatting of strings and fractional
float exponents (irrational in general) are not modelled — no claim below
evaluates either. -/

/-- A numeric reading of a value, as Python arithmetic sees it
(`True`/`False` count as `1`/`0`). -/
inductive NumV where
  | ni (i : Int)
  | nf (q : Rat)

/-- `numView v = some _` exactly when Python arithmetic accepts `v`. -/
def numView : Value → Option NumV
  | .vInt i => some (.ni i)
  | .vBool b => some (.ni (if b then 1 else 0))
  | .vFloat q => some (.nf q)
  | _ => none

/-- The `TypeError` text for a binary operator on unsupported operands. -/
def unsupOperands (sym : String) (l r : Value) : String :=
  let lt := pyTypeName l
  let rt := pyTypeName r
  s!"unsupported operand type(s) for {sym}: '{lt}' and '{rt}'"

/-- Python string repetition `s * n` (empty for `n ≤ 0`). -/
def strRepeat (s : String) (n : Int) : String :=
  String.join (List.replicate n.toNat s)

/-- `operator.add`. -/
def pyAdd : Value → Value → Except String Value
  | .vStr a, .vStr b => .ok (.vStr (a ++ b))
  | .vStr _, r => .error ("can only concatenate str (not \"" ++ pyTypeName r ++ "\") to str")
  | l, r =>
    match numView l, numView r with
    | some (.ni a), some (.ni b) => .ok (.vInt (a + b))
    | some (.ni a), some (.nf b) => .ok (.vFloat (a + b))
    | some (.nf a), some (.ni b) => .ok (.vFloat (a + b))
    | some (.nf a), some (.nf b) => .ok (.vFloat (a + b))
    | _, _ => .error (unsupOperands "+" l r)

/-- `operator.sub`. -/
def pySub (l r : Value) : Except String Value :=
  match numView l, numView r with
  | some (.ni a), some (.ni b) => .ok (.vInt (a - b))
  | some (.ni a), some (.nf b) => .ok (.vFloat (a - b))
  | some (.nf a), some (.ni b) => .ok (.vFloat (a - b))
  | some (.nf a), some (.nf b) => .ok (.vFloat (a - b))
  | _, _ => .error (unsupOperands "-" l r)

/-- `operator.mul` (numeric product, or sequence repetition for strings). -/
def pyMult : Value → Value → Except String Value
  | .vStr a, r =>
    match numView r with
    | some (.ni n) => .ok (.vStr (strRepeat a n))
    | _ => .error ("can't multiply sequence by non-int of type '" ++ pyTypeName r ++ "'")
  | l, .vStr b =>
    match numView l with
    | some (.ni n) => .ok (.vStr (strRepeat b n))
    | _ => .error ("can't multiply sequence by non-int of type '" ++ pyTypeName l ++ "'")
  | l, r =>
    match numView l, numView r with
    | some (.ni a), some (.ni b) => .ok (.vInt (a * b))
    | some (.ni a), some (.nf b) => .ok (.vFloat (a * b))
    | some (.nf a), some (.ni b) => .ok (.vFloat (a * b))
    | some (.nf a), some (.nf b) => .ok (.vFloat (a * b))
    | _, _ => .error (unsupOperands "*" l r)

/-- `operator.truediv`: always a float on success. -/
def pyDiv (l r : Value) : Except String Value :=
  match numView l, numView r with
  | some a, some b =>
    let qa : Rat := match a with | .ni i => (i : Rat) | .nf q => q
    match b with
    | .ni i => if i = 0 then .error "division by zero" else .ok (.vFloat (qa / (i : Rat)))
    | .nf q => if q = 0 then .error "float division by zero" else .ok (.vFloat (qa / q))
  | _, _ => .error (unsupOperands "/" l r)

/-- `operator.mod`.  Python's `%` floors toward the divisor's sign
(`Int.fmod`); `%`-formatting of strings with conversion specifiers is not
modelled (a plain string on the left raises as in Python). -/
def pyMod : Value → Value → Except String Value
  | .vStr _, _ => .error "not all arguments converted during string formatting"
  | l, r =>
    match numView l, numView r with
    | some (.ni a), some (.ni b) =>
      if b = 0 then .error "integer division or modulo by zero"
      else .ok (.vInt (Int.fmod a b))
    | some a, some b =>
      let qa : Rat := match a with | .ni i => (i : Rat) | .nf q => q
      let qb : Rat := match b with | .ni i => (i : Rat) | .nf q => q
      if qb = 0 then .error "float modulo"
      else .ok (.vFloat (qa - qb * (Rat.floor (qa / qb) : Int)))
    | _, _ => .error (unsupOperands "%" l r)

/-- `operator.pow`.  An int-like base with a negative int-like exponent gives
a float, as in Python; float exponents are not modelled (no claim uses them). -/
def pyPow (l r : Value) : Except String Value :=
  match numView l, numView r with
  | some (.ni a), some (.ni e) =>
    if 0 ≤ e then .ok (.vInt (a ^ e.toNat))
    else if a = 0 then .error "0.0 cannot be raised to a negative power"
    else .ok (.vFloat (1 / ((a : Rat) ^ (-e).toNat)))
  | some (.nf q), some (.ni e) =>
    if 0 ≤ e then .ok (.vFloat (q ^ e.toNat))
    else if q = 0 then .error "0.0 cannot be raised to a negative power"
    else .ok (.vFloat (1 / (q ^ (-e).toNat)))
  | some _, some (.nf _) => .error "float exponents are outside the modelled fragment"
  | _, _ => .error (unsupOperands "** or pow()" l r)

/-- `operator.xor`: `bool ^ bool` stays a bool in Python, otherwise int-likes
combine by two's-complement xor. -/
def pyBitXor : Value → Value → Except String Value
  | .vBool a, .vBool b => .ok (.vBool (a != b))
  | l, r =>
    match numView l, numView r with
    | some (.ni a), some (.ni b) => .ok (.vInt (Int.xor a b))
    | _, _ => .error (unsupOperands "^" l r)

/-- The dispatch through `self.operators` for a supported binary node. -/
def applyBinOp : BOp → Value → Value → Except String Value
  | .add, l, r => pyAdd l r
  | .sub, l, r => pySub l r
  | .mult, l, r => pyMult l r
  | .div, l, r => pyDiv l r
  | .mod, l, r => pyMod l r
  | .pow, l, r => pyPow l r
  | .bitxor, l, r => pyBitXor l r
  | op, _, _ => .error ("Unsupported operator: " ++ bopPyName op)

/-- The dispatch through `self.operators` for a unary node
(`operator.pos`, `operator.neg`, `operator.not_`, `operator.invert`). -/
def applyUnaryOp : UOp → Value → Except String Value
  | .uadd, v =>
    match numView v with
    | some (.ni a) => .ok (.vInt a)
    | some (.nf q) => .ok (.vFloat q)
    | none => .error ("bad operand type for unary +: '" ++ pyTypeName v ++ "'")
  | .usub, v =>
    match numView v with
    | some (.ni a) => .ok (.vInt (-a))
    | some (.nf q) => .ok (.vFloat (-q))
    | none => .error ("bad operand type for unary -: '" ++ pyTypeName v ++ "'")
  | .unot, v => .ok (.vBool (!pyTruthy v))
  | .invert, v =>
    match v with
    | .vBool b => .ok (.vInt (if b then -2 else -1))
    | .vInt i => .ok (.vInt (-i - 1))
    | _ => .error ("bad operand type for unary ~: '" ++ pyTypeName v ++ "'")

/-- `handle_type_function`: the `type()` builtin.  Here the bool test comes
BEFORE the int test, so booleans do report `'bool'`. -/
def handle_type_function (args : List Value) : Except String Value :=
  match args with
  | [value] =>
    if pyIsInstBool value then .ok (.vStr "bool")
    else if pyIsInstInt value then .ok (.vStr "int")
    else if pyIsInstFloat value then .ok (.vStr "float")
    else
      match value with
      | .vStr s => .ok (.vStr (if s.length = 1 then "char" else "string"))
      | v => .ok (.vStr (pyTypeName v))
  | _ => .error "type() function expects exactly one argument."

/-- `handle_invert_function`: the `invert()` builtin the `!` prefix rewrites
to.  `chr((-ord(x)) & 0xFF)` is the masked negation of a character's code. -/
def handle_invert_function (args : List Value) (line_number : Nat) :
    Except String Value :=
  match args with
  | [x] =>
    if pyIsInstBool x then
      .ok (.vBool (!pyTruthy x))
    else if pyIsInstInt x then
      .ok (.vInt (-(intOfValue x)))
    else if pyIsInstFloat x then
      match x with
      | .vFloat q => .ok (.vFloat (-q))
      | _ => .error "unreachable: pyIsInstFloat only holds of floats"
    else
      match x with
      | .vStr s =>
        if s.length = 1 then
          match s.data with
          | [c] => .ok (.vStr (String.singleton (Char.ofNat ((256 - c.toNat % 256) % 256))))
          | _ => .error "unreachable: a length-1 string has one character"
        else
          .error (s!"Line {line_number}: Type Error: Cannot invert type '" ++ pyTypeName x ++ "'.")
      | _ =>
        .error (s!"Line {line_number}: Type Error: Cannot invert type '" ++ pyTypeName x ++ "'.")
  | _ => .error "invert() function expects exactly one argument."

mutual

/-- `_evaluate_ast`: the structural walk over the restricted AST.  Errors are
the `str(e)` of the exception Python would raise; `evaluate_expression` wraps
them with the line tag. -/
def evaluateAst (st : KState) (line_number : Nat) : Expr → Except String Value
  | .num i => .ok (.vInt i)
  | .fnum q => .ok (.vFloat q)
  | .strLit s => .ok (.vStr s)
  | .constBool b => .ok (.vBool b)
  | .constNone => .ok .vNone
  | .binOp op l r =>
    if bopSupported op then
      match evaluateAst st line_number l with
      | .error e => .error e
      | .ok lv =>
        match evaluateAst st line_number r with
        | .error e => .error e
        | .ok rv => applyBinOp op lv rv
    else .error ("Unsupported operator: " ++ bopPyName op)
  | .unaryOp op e =>
    if uopSupported op then
      match evaluateAst st line_number e with
      | .error msg => .error msg
      | .ok v => applyUnaryOp op v
    else .error "unreachable: every unary node is in the dispatch table"
  | .name s =>
    let id := strLower s
    if id = "true" then .ok (.vBool true)
    else if id = "false" then .ok (.vBool false)
    else
      match get_variable_info st id with
      | some var_info => .ok var_info.value
      | none => .error ("Undefined variable: " ++ id)
  | .call fn args =>
    match evalArgs st line_number args with
    | .error e => .error e
    | .ok vs =>
      if fn = "type" then handle_type_function vs
      else if fn = "invert" then handle_invert_function vs line_number
      else .error ("Unsupported function: " ++ fn)
  | .callNonName => .error "Unsupported function call."
  | .other pyNodeName => .error ("Unsupported expression: " ++ pyNodeName)

/-- The left-to-right evaluation of a call's argument list. -/
def evalArgs (st : KState) (line_number : Nat) : ExprList → Except String (List Value)
  | .nil => .ok []
  | .cons a rest =>
    match evaluateAst st line_number a with
    | .error e => .error e
    | .ok v =>
      match evalArgs st line_number rest with
      | .error e => .error e
      | .ok vs => .ok (v :: vs)

end

/-- `evaluate_expression`: the expression text is represented by its
`ast.parse` outcome (`none` = the rewritten text is rejected as invalid
syntax).  Any exception out of the walk is re-raised as a `ValueError`
carrying the line tag — the source wraps even already-tagged messages again. -/
def evaluate_expression (st : KState) (parsed : Option Expr) (line_number : Nat) :
    Except String Value :=
  match parsed with
  | none => .error (s!"Line {line_number}: Evaluation Error: invalid syntax")
  | some e =>
    match evaluateAst st line_number e with
    | .ok v => .ok v
    | .error msg => .error (s!"Line {line_number}: Evaluation Error: " ++ msg)

/-! ### Type inference, declarations, print and the driver -/

/-- Python's `str` of a float.  Integral floats print with a trailing `.0`;
a terminating decimal is printed exactly; other rationals (unreachable from
the claims) fall back to a fraction rendering. -/
def pyStrFloat (q : Rat) : String :=
  if q.den = 1 then toString q.num ++ ".0"
  else
    let ks := (List.range 30).filter (fun k => (q * (10 : Rat) ^ k).den = 1)
    match ks with
    | [] => toString q.num ++ "/" ++ toString q.den
    | k :: _ =>
      let m := (q * (10 : Rat) ^ k).num
      let sign := if m < 0 then "-" else ""
      let ds := toString m.natAbs
      let ds := if ds.length ≤ k then String.mk (List.replicate (k + 1 - ds.length) '0') ++ ds else ds
      sign ++ ds.take (ds.length - k) ++ "." ++ ds.drop (ds.length - k)

/-- Python's `str(v)` for the modelled values. -/
def pyStr : Value → String
  | .vInt i => toString i
  | .vFloat q => pyStrFloat q
  | .vBool b => if b then "True" else "False"
  | .vStr s => s
  | .vNone => "None"

/-- Python's `format(v, '08b')`: sign-aware binary, zero-padded to width 8. -/
def pyFormat08b (v : Value) : Except String String :=
  if pyIsInstInt v then
    let i := intOfValue v
    let digits := (Nat.toDigits 2 i.natAbs).asString
    let sign := if i < 0 then "-" else ""
    let width := 8 - sign.length
    let padded :=
      if digits.length < width then
        String.mk (List.replicate (width - digits.length) '0') ++ digits
      else digits
    .ok (sign ++ padded)
  else
    .error ("Unknown format code 'b' for object of type '" ++ pyTypeName v ++ "'")

/-- The Python convention `(type_name, value)` / `(None, error_message)`
returned by `infer_type`. -/
inductive InferResult where
  | found (type_name : String) (value : Value)
  | failed (message : String)
deriving DecidableEq, Repr

/-- `infer_type`: evaluate, then test `isinstance` in source order — int,
float, bool, str.  Because a Python `bool` IS an `int`, the int test
swallows booleans and the bool branch is dead code. -/
def infer_type (st : KState) (parsed : Option Expr) (line_number : Nat) :
    Except String InferResult :=
  match evaluate_expression st parsed line_number with
  | .error e => .error e
  | .ok value =>
    if pyIsInstInt value then .ok (.found "int" value)
    else if pyIsInstFloat value then .ok (.found "float" value)
    else if pyIsInstBool value then .ok (.found "bool" value)
    else
      match value with
      | .vStr s => .ok (.found (if s.length = 1 then "char" else "string") (.vStr s))
      | v =>
        .ok (.failed (s!"Line {line_number}: Type Inference Error: Unsupported value type '"
          ++ pyTypeName v ++ "'."))

/-- `self.supported_types` (a Python set; this is its insertion order —
only membership is ever observed by the claims). -/
def supported_types : List String := ["int", "float", "string", "char", "bool", "byte"]

/-- A line matched by the declaration regex
`^(private\s+)?(?:(const)\s+)?(?:(\w+)\s+)?(\w+)\s*=\s*(.+)$`:
`is_private` and `modifier` are the first two groups (the `modifier` group
can only capture `const`), `var_type` the optional type token, and `expr`
the parse outcome of the trailing expression text. -/
structure DeclLine where
  is_private : Bool
  modifier : Bool
  var_type : Option String
  var_name : String
  expr : Option Expr

/-- `handle_declaration`.  Returns `.error msg` when the Python code would
raise (the caller tags it), `.ok (some diag, st)` for a returned diagnostic
(the state is untouched on every such path) and `.ok (none, st')` on
success. -/
def handle_declaration (st : KState) (d : DeclLine) (line_number : Nat) :
    Except String (Option String × KState) :=
  match get_variable_info st d.var_name with
  | some var_info =>
    -- the name resolves: the reassignment path
    if d.modifier then
      .ok (some (s!"Line {line_number}: Syntax Error: Cannot redeclare variable '"
        ++ d.var_name ++ "' with modifier 'const'."), st)
    else if var_info.const then
      .ok (some (s!"Line {line_number}: Type Error: Cannot reassign to constant variable '"
        ++ d.var_name ++ "'."), st)
    else if d.var_type.isSome then
      .ok (some (s!"Line {line_number}: Syntax Error: Cannot change the type of an existing variable '"
        ++ d.var_name ++ "'."), st)
    else
      match evaluate_expression st d.expr line_number with
      | .error e => .error e
      | .ok value =>
        let proceed : Value → Except String (Option String × KState) := fun value =>
          .ok (none, assign_variable st d.var_name var_info.type value d.is_private var_info.const)
        if var_info.type = "byte" then
          if pyIsInstInt value then
            if 0 ≤ intOfValue value ∧ intOfValue value ≤ 255 then proceed value
            else .ok (some (s!"Line {line_number}: Type Error: 'byte' type must be an integer between 0 and 255."), st)
          else .ok (some (s!"Line {line_number}: Type Error: 'byte' type must be assigned an integer value."), st)
        else if var_info.type = "bool" then
          match value with
          | .vStr s =>
            if strLower s = "true" then proceed (.vBool true)
            else if strLower s = "false" then proceed (.vBool false)
            else .ok (some (s!"Line {line_number}: Type Error: Cannot cast string '" ++ s ++ "' to bool."), st)
          | .vBool b => proceed (.vBool b)
          | v => .ok (some (s!"Line {line_number}: Type Error: Cannot cast value '" ++ pyStr v ++ "' to bool."), st)
        else if var_info.type = "char" then
          match value with
          | .vStr s =>
            if s.length ≠ 1 then
              .ok (some (s!"Line {line_number}: Type Error: 'char' type must be a single character."), st)
            else proceed (.vStr s)
          | _ => .ok (some (s!"Line {line_number}: Type Error: Cannot assign non-string value to 'char' type."), st)
        else proceed value
  | none =>
    -- the name is fresh: the declaration path
    match d.var_type with
    | none =>
      match infer_type st d.expr line_number with
      | .error e => .error e
      | .ok (.failed msg) => .ok (some msg, st)
      | .ok (.found inferred value) =>
        .ok (none, assign_variable st d.var_name inferred value d.is_private d.modifier)
    | some t0 =>
      let var_type := t0.trim
      if ¬ supported_types.contains var_type then
        .ok (some (s!"Line {line_number}: Type Error: Unsupported type '" ++ var_type
          ++ "'. Supported types are: " ++ String.intercalate ", " supported_types ++ "."), st)
      else
        match evaluate_expression st d.expr line_number with
        | .error e => .error e
        | .ok value =>
          let proceed : Value → Except String (Option String × KState) := fun value =>
            .ok (none, assign_variable st d.var_name var_type value d.is_private d.modifier)
          if var_type = "bool" then
            match value with
            | .vStr s =>
              if strLower s = "true" then proceed (.vBool true)
              else if strLower s = "false" then proceed (.vBool false)
              else .ok (some (s!"Line {line_number}: Type Error: Cannot cast string '" ++ s ++ "' to bool."), st)
            | .vBool b => proceed (.vBool b)
            | v => .ok (some (s!"Line {line_number}: Type Error: Cannot cast value '" ++ pyStr v ++ "' to bool."), st)
          else if var_type = "char" then
            match value with
            | .vStr s =>
              if s.length ≠ 1 then
                .ok (some (s!"Line {line_number}: Type Error: 'char' type must be a single character."), st)
              else proceed (.vStr s)
            | _ => .ok (some (s!"Line {line_number}: Type Error: Cannot assign non-string value to 'char' type."), st)
          else if var_type = "byte" then
            if pyIsInstInt value then
              if 0 ≤ intOfValue value ∧ intOfValue value ≤ 255 then proceed value
              else .ok (some (s!"Line {line_number}: Type Error: 'byte' type must be an integer between 0 and 255."), st)
            else .ok (some (s!"Line {line_number}: Type Error: 'byte' type must be assigned an integer value."), st)
          else proceed value

/-- One comma-separated sub-expression of a `print` line, after
`split_expressions` and `.strip()`: its raw text (used verbatim for the
variable lookup) and the `ast.parse` outcome of its invert-rewritten text. -/
structure PrintItem where
  raw : String
  parsed : Option Expr

/-- One iteration of `handle_print`'s loop: each sub-expression evaluates
inside its own `try`, so a failure renders its message in place.  When the raw
text is exactly a bound variable name, a `byte` variable prints as the
8-character binary of the STORED value and a `bool` variable as `str` of the
evaluated value; everything else is `str`-ed (either here or by the
`' '.join(str(item) ...)` in `interpret`). -/
def printItemOut (st : KState) (it : PrintItem) (line_number : Nat) : String :=
  match get_variable_info st it.raw with
  | some var_info =>
    match evaluate_expression st it.parsed line_number with
    | .error e => e
    | .ok value =>
      if var_info.type = "byte" then
        match pyFormat08b var_info.value with
        | .ok s => s
        | .error e => e
      else if var_info.type = "bool" then pyStr value
      else pyStr value
  | none =>
    match evaluate_expression st it.parsed line_number with
    | .error e => e
    | .ok value => pyStr value

/-- A physical script line after comment stripping (`remove_inline_comments`)
and the driver's classification.  The split into comma-separated print items
and the regex/`ast` parsing of declarations happen at the string level
(regexes and Python's parser, outside the embedded fragment); a `SrcLine` is
their outcome. `declInvalid` is a line the dispatch regex accepts but the
declaration regex (which needs a non-empty right-hand side) rejects. -/
inductive SrcLine where
  | blank
  | openBrace
  | closeBrace
  | printLine (items : List PrintItem)
  | decl (d : DeclLine)
  | declInvalid
  | unknown (text : String)

/-- `execute_line`: dispatch one (non-brace, non-blank) line and catch any
exception a handler raises, converting it to a line-tagged diagnostic; the
state is returned unchanged on every raising path (no handler mutates before
raising).  An empty `print` payload lexes to `printLine []`. -/
def execute_line (st : KState) (line : SrcLine) (line_number : Nat) :
    Option String × KState :=
  match line with
  | .printLine [] =>
    (some (s!"Line {line_number}: Syntax Error: Missing expression in print statement."), st)
  | .printLine items =>
    (some (String.intercalate " " (items.map (fun it => printItemOut st it line_number))), st)
  | .decl d =>
    match handle_declaration st d line_number with
    | .ok (res, st') => (res, st')
    | .error e => (some (s!"Line {line_number}: Error: " ++ e), st)
  | .declInvalid =>
    (some (s!"Line {line_number}: Syntax Error: Invalid variable declaration."), st)
  | .unknown text => (some (s!"Line {line_number}: Unknown command: " ++ text), st)
  | _ => (none, st)

/-- The loop body of `interpret`: braces push/pop scopes (an unmatched `}` is
reported and the run continues), every other non-blank line goes through
`execute_line`, and non-`None` results are collected in order.  Line numbers
start at 1 and every physical line (blank ones included) counts. -/
def interpretLoop (st : KState) (line_number : Nat) :
    List SrcLine → List String × KState
  | [] => ([], st)
  | line :: rest =>
    match line with
    | .blank => interpretLoop st (line_number + 1) rest
    | .openBrace =>
      interpretLoop { st with local_variables_stack := [] :: st.local_variables_stack }
        (line_number + 1) rest
    | .closeBrace =>
      match st.local_variables_stack with
      | _ :: tl =>
        interpretLoop { st with local_variables_stack := tl } (line_number + 1) rest
      | [] =>
        let r := interpretLoop st (line_number + 1) rest
        ((s!"Line {line_number}: Syntax Error: Unmatched closing brace '\x7d'.") :: r.1, r.2)
    | l =>
      let e := execute_line st l line_number
      let r := interpretLoop e.2 (line_number + 1) rest
      match e.1 with
      | none => r
      | some s => (s :: r.1, r.2)

/-- `interpret`: run a whole script from a fresh interpreter and join the
collected results with newlines. -/
def interpret (script : List SrcLine) : String :=
  String.intercalate "\n" (interpretLoop initState 1 script).1

/-- `remove_inline_comments`: cut at the first `#` and strip whitespace. -/
def remove_inline_comments (line : String) : String :=
  ((line.splitOn "#").headD "").trim

/-! ### Helper lemmas -/

/-- ASCII lowering never produces an uppercase ASCII letter. -/
theorem toLower_not_upper (c : Char) : ¬('A' ≤ c.toLower ∧ c.toLower ≤ 'Z') := by
  by_cases h : c.toNat ≥ 65 ∧ c.toNat ≤ 90
  · have hval : Nat.isValidChar (c.toNat + 32) := Or.inl (by omega)
    have hv : (Char.ofNat (c.toNat + 32)).toNat = c.toNat + 32 := by
      simp only [Char.ofNat, hval, dite_true]
      rfl
    simp only [Char.toLower, h, if_true]
    rintro ⟨ha, hb⟩
    simp only [Char.le_def, UInt32.le_def, BitVec.le_def] at hb
    have hb' : (Char.ofNat (c.toNat + 32)).toNat ≤ ('Z').toNat := hb
    rw [hv] at hb'
    have h90 : ('Z').toNat = 90 := by decide
    omega
  · simp only [Char.toLower, h, if_false]
    rintro ⟨ha, hb⟩
    simp only [Char.le_def, UInt32.le_def, BitVec.le_def] at ha hb
    have ha' : ('A').toNat ≤ c.toNat := ha
    have hb' : c.toNat ≤ ('Z').toNat := hb
    have h65 : ('A').toNat = 65 := by decide
    have h90 : ('Z').toNat = 90 := by decide
    exact h ⟨by omega, by omega⟩

/-- Whether a string contains an uppercase ASCII letter. -/
def containsUpper (s : String) : Bool :=
  s.data.any (fun c => decide ('A' ≤ c ∧ c ≤ 'Z'))

/-- A lowercased string contains no uppercase ASCII letter. -/
theorem containsUpper_strLower (s : String) : containsUpper (strLower s) = false := by
  simp only [containsUpper, strLower, List.any_map, List.any_eq_false]
  intro c _
  simpa using toLower_not_upper c

/-- After an update the key maps to the new record. -/
theorem lookupA_updateA_self (m : List (String × VarData)) (k : String) (v : VarData) :
    lookupA (updateA m k v) k = some v := by
  induction m with
  | nil => simp [updateA, lookupA]
  | cons p rest ih =>
    obtain ⟨k0, v0⟩ := p
    by_cases hk : k0 = k
    · subst hk
      simp [updateA, lookupA]
    · simp only [updateA, hk, if_false, lookupA]
      exact ih

/-- Updating one key leaves every other key's binding unchanged. -/
theorem lookupA_updateA_ne (m : List (String × VarData)) (k k' : String) (v : VarData)
    (h : k' ≠ k) : lookupA (updateA m k v) k' = lookupA m k' := by
  induction m with
  | nil => simp [updateA, lookupA, Ne.symm h]
  | cons p rest ih =>
    obtain ⟨k0, v0⟩ := p
    by_cases hk : k0 = k
    · subst hk
      simp only [updateA, if_pos rfl, lookupA]
      rw [if_neg (Ne.symm h), if_neg (Ne.symm h)]
    · simp only [updateA, hk, if_false, lookupA]
      split
      · rfl
      · exact ih

/-- Every returning path of `handle_declaration` either leaves the state
untouched (all diagnostic paths) or ends in one `assign_variable` call with
the line's own `private` flag. -/
theorem handle_declaration_state_cases (st : KState) (d : DeclLine) (n : Nat)
    (res : Option String) (st' : KState)
    (h : handle_declaration st d n = .ok (res, st')) :
    st' = st ∨ ∃ ty v c, st' = assign_variable st d.var_name ty v d.is_private c := by
  simp only [handle_declaration] at h
  repeat' (split at h)
  all_goals
    first
    | (injection h with h1
       injection h1 with h1a h1b
       first
       | exact Or.inl h1b.symm
       | exact Or.inr ⟨_, _, _, h1b.symm⟩)
    | injection h

/-- The same case split, lifted through `execute_line`'s exception catch. -/
theorem execute_line_decl_state_cases (st : KState) (d : DeclLine) (n : Nat) :
    (execute_line st (.decl d) n).2 = st ∨
      ∃ ty v c, (execute_line st (.decl d) n).2 = assign_variable st d.var_name ty v d.is_private c := by
  unfold execute_line
  cases hh : handle_declaration st d n with
  | error e => simp [hh]
  | ok p =>
    obtain ⟨r, st'⟩ := p
    simpa [hh] using handle_declaration_state_cases st d n r st' hh

/-- The driver loop distributes over concatenation: the lines of `ys` run
after those of `xs`, from the state `xs` left behind, whatever `xs`
produced — no line ends a run early. -/
theorem interpretLoop_append (xs ys : List SrcLine) : ∀ st n,
    interpretLoop st n (xs ++ ys) =
      ((interpretLoop st n xs).1
         ++ (interpretLoop (interpretLoop st n xs).2 (n + xs.length) ys).1,
       (interpretLoop (interpretLoop st n xs).2 (n + xs.length) ys).2) := by
  induction xs with
  | nil => intro st n; simp [interpretLoop]
  | cons l rest ih =>
    intro st n
    have hlen : ∀ m : Nat, m + (rest.length + 1) = (m + 1) + rest.length := by omega
    cases l with
    | blank =>
      simp only [List.cons_append, interpretLoop, List.length_cons, hlen, List.append_eq]
      exact ih _ (n + 1)
    | openBrace =>
      simp only [List.cons_append, interpretLoop, List.length_cons, hlen, List.append_eq]
      exact ih _ (n + 1)
    | closeBrace =>
      cases hst : st.local_variables_stack with
      | nil =>
        simp only [List.cons_append, interpretLoop, hst, List.length_cons, hlen, List.append_eq]
        rw [ih]
      | cons a tl =>
        simp only [List.cons_append, interpretLoop, hst, List.length_cons, hlen, List.append_eq]
        exact ih _ (n + 1)
    | printLine items =>
      simp only [List.cons_append, interpretLoop, List.length_cons, hlen, List.append_eq]
      rw [ih]
      cases (execute_line st (.printLine items) n).1 <;> rfl
    | decl dl =>
      simp only [List.cons_append, interpretLoop, List.length_cons, hlen, List.append_eq]
      rw [ih]
      cases (execute_line st (.decl dl) n).1 <;> rfl
    | declInvalid =>
      simp only [List.cons_append, interpretLoop, List.length_cons, hlen, List.append_eq]
      rw [ih]
      cases (execute_line st .declInvalid n).1 <;> rfl
    | unknown t =>
      simp only [List.cons_append, interpretLoop, List.length_cons, hlen, List.append_eq]
      rw [ih]
      cases (execute_line st (.unknown t) n).1 <;> rfl

/-! ### The claims -/

/-- C4: for the untyped declaration `x = true` the expression evaluates to
the boolean `True`, yet `infer_type` tags the binding `int`: Python's
`isinstance(value, int)` also accepts booleans, so the int test (first in the
stated precedence) swallows every boolean and the `bool` branch of
`infer_type` is unreachable.  The `type()` builtin, which tests `bool` before
`int`, reports `bool` for the same value — the code's own evidence that the
`int` tag is a slip, as the claim's bound `bool` tag expects. -/
theorem C4_bool_inferred_as_int :
    infer_type initState (some (.name "true")) 1 = .ok (.found "int" (.vBool true)) ∧
    (interpretLoop initState 1
        [.decl ⟨false, false, none, "x", some (.name "true")⟩]).2.global_variables
      = [("x", ⟨"int", .vBool true, false⟩)] ∧
    handle_type_function [.vBool true] = .ok (.vStr "bool") := by
  exact ⟨by with_unfolding_all rfl, by with_unfolding_all rfl, by with_unfolding_all rfl⟩

/-- C5: `byte b = 256` yields the range `Type Error` diagnostic and leaves the
state empty (nothing is bound); `byte b = 255` succeeds with no output; and
`print b` after it renders the stored value as the zero-padded 8-character
binary string `11111111`. -/
theorem C5_byte_range_and_print :
    interpret [.decl ⟨false, false, some "byte", "b", some (.num 256)⟩]
      = "Line 1: Type Error: 'byte' type must be an integer between 0 and 255." ∧
    (interpretLoop initState 1 [.decl ⟨false, false, some "byte", "b", some (.num 256)⟩]).2
      = initState ∧
    interpret [.decl ⟨false, false, some "byte", "b", some (.num 255)⟩] = "" ∧
    interpret [.decl ⟨false, false, some "byte", "b", some (.num 255)⟩,
               .printLine [⟨"b", some (.name "b")⟩]] = "11111111" := by
  exact ⟨by with_unfolding_all rfl, by with_unfolding_all rfl, by with_unfolding_all rfl, by with_unfolding_all rfl⟩

/-- C6 counterexample: `2 ** 3` uses the Pow operator, which is outside the
claim's binary whitelist `+ - * / % ^`, yet evaluation succeeds with `8`
instead of failing with an unsupported-operation error — `ast.Pow` is in the
interpreter's dispatch table. -/
theorem C6_counterexample :
    bopSupported .pow = true ∧
    evaluateAst initState 1 (.binOp .pow (.num 2) (.num 3)) = .ok (.vInt 8) := by
  exact ⟨by with_unfolding_all rfl, by with_unfolding_all rfl⟩

/-- C9 counterexample: after `x = 1`, a block declaring `private x = 2` and
its closing `}`, the scope stack is empty again, yet the name `x` still
resolves — the later expression `x` evaluates to `1` (the outer binding)
instead of failing with an undefined-name error. -/
theorem C9_counterexample :
    (interpretLoop initState 1
        [.decl ⟨false, false, none, "x", some (.num 1)⟩, .openBrace,
         .decl ⟨true, false, none, "x", some (.num 2)⟩, .closeBrace]).2.local_variables_stack
      = [] ∧
    evaluateAst (interpretLoop initState 1
        [.decl ⟨false, false, none, "x", some (.num 1)⟩, .openBrace,
         .decl ⟨true, false, none, "x", some (.num 2)⟩, .closeBrace]).2 5 (.name "x")
      = .ok (.vInt 1) := by
  exact ⟨by with_unfolding_all rfl, by with_unfolding_all rfl⟩

/-- C10 counterexample: with `x = 1` and `X = 2` both declared (declarations
bind verbatim, so the two coexist), the expression `X` references the
uppercase-named variable but does NOT fail with an undefined-variable error:
the reference is lowercased to `x` and silently yields the other binding's
value `1`. -/
theorem C10_counterexample :
    evaluateAst (interpretLoop initState 1
        [.decl ⟨false, false, none, "x", some (.num 1)⟩,
         .decl ⟨false, false, none, "X", some (.num 2)⟩]).2 3 (.name "X")
      = .ok (.vInt 1) := by
  with_unfolding_all rfl

/-- C3 counterexample: `x = 1` then `private x = 2` — the second line carries
the visibility modifier and its identifier resolves, yet no `SyntaxError`
diagnostic is produced (the output is empty) and the binding IS changed to
`2`: the redeclaration check only fires for the `const` group of the
declaration regex. -/
theorem C3_counterexample :
    interpret [.decl ⟨false, false, none, "x", some (.num 1)⟩,
               .decl ⟨true, false, none, "x", some (.num 2)⟩] = "" ∧
    (interpretLoop initState 1
        [.decl ⟨false, false, none, "x", some (.num 1)⟩,
         .decl ⟨true, false, none, "x", some (.num 2)⟩]).2.global_variables
      = [("x", ⟨"int", .vInt 2, false⟩)] := by
  exact ⟨by with_unfolding_all rfl, by with_unfolding_all rfl⟩

/-- C2 counterexample: `const x = 1` then `const x = 2` — the second line's
identifier resolves to a binding whose const flag is set, yet execution
returns a `Syntax Error` (redeclaration with modifier) diagnostic, not the
`Type Error` the claim requires; no `Type Error` text occurs in the output. -/
theorem C2_counterexample :
    interpret [.decl ⟨false, true, none, "x", some (.num 1)⟩,
               .decl ⟨false, true, none, "x", some (.num 2)⟩]
      = "Line 2: Syntax Error: Cannot redeclare variable 'x' with modifier 'const'." ∧
    ((interpret [.decl ⟨false, true, none, "x", some (.num 1)⟩,
                 .decl ⟨false, true, none, "x", some (.num 2)⟩]).splitOn "Type Error").length
      = 1 := by
  exact ⟨by with_unfolding_all rfl, by with_unfolding_all rfl⟩

/-- C1 counterexample: inside a block, `private x = 1` binds `x` in the local
scope; the subsequent reassignment line `x = 2` (no modifier, no type)
resolves `x` to that local binding but does NOT replace its value — the local
binding keeps `1` and a NEW binding `x = 2` is created in the global scope. -/
theorem C1_counterexample :
    (interpretLoop initState 1
        [.openBrace, .decl ⟨true, false, none, "x", some (.num 1)⟩,
         .decl ⟨false, false, none, "x", some (.num 2)⟩]).1 = [] ∧
    (interpretLoop initState 1
        [.openBrace, .decl ⟨true, false, none, "x", some (.num 1)⟩,
         .decl ⟨false, false, none, "x", some (.num 2)⟩]).2.local_variables_stack
      = [[("x", ⟨"int", .vInt 1, false⟩)]] ∧
    (interpretLoop initState 1
        [.openBrace, .decl ⟨true, false, none, "x", some (.num 1)⟩,
         .decl ⟨false, false, none, "x", some (.num 2)⟩]).2.global_variables
      = [("x", ⟨"int", .vInt 2, false⟩)] := by
  exact ⟨by with_unfolding_all rfl, by with_unfolding_all rfl, by with_unfolding_all rfl⟩

/-- C7 counterexample: the declaration `x = (` has malformed expression
syntax; its single diagnostic carries the `Line 1:` tag TWICE — the evaluator
tags the message once and the dispatch-level catch wraps it again — and its
outer category is the generic `Error` with inner `Evaluation Error`, so the
claimed one-tag format does not hold. -/
theorem C7_counterexample :
    interpret [.decl ⟨false, false, none, "x", none⟩]
      = "Line 1: Error: Line 1: Evaluation Error: invalid syntax" ∧
    ((interpret [.decl ⟨false, false, none, "x", none⟩]).splitOn "Line 1:").length = 3 := by
  exact ⟨by with_unfolding_all rfl, by with_unfolding_all rfl⟩


/-- C2 (amended): a declaration line whose identifier resolves to a
const-flagged binding and which does not itself carry the `const` modifier
returns the `Type Error: Cannot reassign to constant variable` diagnostic and
leaves the interpreter state exactly as it was (a line that does carry
`const` is caught earlier by the redeclaration check and returns a
`Syntax Error` instead, also leaving the state untouched). -/
theorem C2_const_reassign_diagnostic (st : KState) (d : DeclLine) (n : Nat)
    (vi : VarData) (h1 : get_variable_info st d.var_name = some vi)
    (h2 : vi.const = true) (h3 : d.modifier = false) :
    execute_line st (.decl d) n =
      (some (s!"Line {n}: Type Error: Cannot reassign to constant variable '"
        ++ d.var_name ++ "'."), st) := by
  have hh : handle_declaration st d n =
      .ok (some (s!"Line {n}: Type Error: Cannot reassign to constant variable '"
        ++ d.var_name ++ "'."), st) := by
    unfold handle_declaration
    rw [h1]
    simp [h2, h3]
  simp only [execute_line, hh]

/-- C2 witness. -/
theorem C2_const_reassign_diagnostic_witness :
    get_variable_info ⟨[("x", ⟨"int", .vInt 1, true⟩)], []⟩ "x" = some ⟨"int", .vInt 1, true⟩ ∧
    execute_line ⟨[("x", ⟨"int", .vInt 1, true⟩)], []⟩
        (.decl ⟨false, false, none, "x", some (.num 2)⟩) 7
      = (some "Line 7: Type Error: Cannot reassign to constant variable 'x'.",
         ⟨[("x", ⟨"int", .vInt 1, true⟩)], []⟩) :=
  ⟨rfl, C2_const_reassign_diagnostic ⟨[("x", ⟨"int", .vInt 1, true⟩)], []⟩
    ⟨false, false, none, "x", some (.num 2)⟩ 7 ⟨"int", .vInt 1, true⟩ rfl rfl rfl⟩

/-- C3 (amended): of the two modifiers only `const` triggers the
redeclaration diagnostic — a declaration line whose identifier resolves and
which carries the `const` modifier group returns the
`Syntax Error: Cannot redeclare ... with modifier 'const'` diagnostic with
the state untouched; a line carrying only `private` is NOT rejected and is
executed as a reassignment instead (see the counterexample). -/
theorem C3_redeclare_requires_const_modifier (st : KState) (d : DeclLine) (n : Nat)
    (vi : VarData) (h1 : get_variable_info st d.var_name = some vi)
    (h2 : d.modifier = true) :
    execute_line st (.decl d) n =
      (some (s!"Line {n}: Syntax Error: Cannot redeclare variable '"
        ++ d.var_name ++ "' with modifier 'const'."), st) := by
  have hh : handle_declaration st d n =
      .ok (some (s!"Line {n}: Syntax Error: Cannot redeclare variable '"
        ++ d.var_name ++ "' with modifier 'const'."), st) := by
    unfold handle_declaration
    rw [h1]
    simp [h2]
  simp only [execute_line, hh]

/-- C3 witness. -/
theorem C3_redeclare_requires_const_modifier_witness :
    get_variable_info ⟨[("x", ⟨"int", .vInt 1, false⟩)], []⟩ "x" = some ⟨"int", .vInt 1, false⟩ ∧
    execute_line ⟨[("x", ⟨"int", .vInt 1, false⟩)], []⟩
        (.decl ⟨false, true, none, "x", some (.num 2)⟩) 4
      = (some "Line 4: Syntax Error: Cannot redeclare variable 'x' with modifier 'const'.",
         ⟨[("x", ⟨"int", .vInt 1, false⟩)], []⟩) :=
  ⟨rfl, C3_redeclare_requires_const_modifier ⟨[("x", ⟨"int", .vInt 1, false⟩)], []⟩
    ⟨false, true, none, "x", some (.num 2)⟩ 4 ⟨"int", .vInt 1, false⟩ rfl rfl⟩

/-- C6 (amended): the evaluator's binary whitelist is `+ - * / % ^` AND `**`
(`ast.Pow` is in the dispatch table, so exponentiation succeeds — see the
counterexample); every binary node outside the table fails with
`Unsupported operator`; all four Python unary nodes are in the table, so no
unary operator can fail the whitelist test; a call to any name other than the
builtins `type` and `invert` fails with `Unsupported function` once its
arguments evaluate, a non-name callee fails with `Unsupported function call.`,
and every other expression node shape fails with `Unsupported expression` —
evaluation is a pure function of the expression and the scope state. -/
theorem C6_operator_whitelist :
    (∀ (op : BOp) (l r : Expr) (st : KState) (n : Nat), bopSupported op = false →
        evaluateAst st n (.binOp op l r)
          = .error ("Unsupported operator: " ++ bopPyName op)) ∧
    (∀ (fn : String) (args : ExprList) (vs : List Value) (st : KState) (n : Nat),
        fn ≠ "type" → fn ≠ "invert" → evalArgs st n args = .ok vs →
        evaluateAst st n (.call fn args) = .error ("Unsupported function: " ++ fn)) ∧
    (∀ (st : KState) (n : Nat),
        evaluateAst st n .callNonName = .error "Unsupported function call.") ∧
    (∀ (st : KState) (n : Nat) (s : String),
        evaluateAst st n (.other s) = .error ("Unsupported expression: " ++ s)) ∧
    (∀ u : UOp, uopSupported u = true) := by
  refine ⟨?_, ?_, ?_, ?_, ?_⟩
  · intro op l r st n h
    simp [evaluateAst, h]
  · intro fn args vs st n h1 h2 h3
    simp [evaluateAst, h1, h2, h3]
  · intro st n
    rfl
  · intro st n s
    rfl
  · intro u
    rfl

/-- C6 witness. -/
theorem C6_operator_whitelist_witness :
    (bopSupported .lshift = false ∧
      evaluateAst initState 1 (.binOp .lshift (.num 1) (.num 2))
        = .error "Unsupported operator: LShift") ∧
    (("foo" : String) ≠ "type" ∧ ("foo" : String) ≠ "invert" ∧
      evalArgs initState 1 .nil = .ok [] ∧
      evaluateAst initState 1 (.call "foo" .nil) = .error "Unsupported function: foo") :=
  ⟨⟨rfl, C6_operator_whitelist.1 .lshift (.num 1) (.num 2) initState 1 rfl⟩,
   ⟨by decide, by decide, rfl,
    C6_operator_whitelist.2.1 "foo" .nil [] initState 1 (by decide) (by decide) rfl⟩⟩


/-- C7 (amended): diagnostics are line-tagged, but not always with a single
tag: an evaluation error raised while executing a declaration (here: an
expression whose text fails to parse, on a fresh untyped name) is wrapped
again by the dispatch-level catch, producing
`Line N: Error: Line N: Evaluation Error: ...` with the line tag TWICE and
outer category the generic `Error`; the same malformed expression inside a
`print` item is rendered inline with a single tag and category
`Evaluation Error` (a category the claim's list does not include). -/
theorem C7_eval_error_tagging :
    (∀ (st : KState) (d : DeclLine) (n : Nat),
        get_variable_info st d.var_name = none → d.var_type = none → d.expr = none →
        execute_line st (.decl d) n =
          (some (s!"Line {n}: Error: "
            ++ s!"Line {n}: Evaluation Error: invalid syntax"), st)) ∧
    (∀ (st : KState) (raw : String) (n : Nat),
        get_variable_info st raw = none →
        execute_line st (.printLine [⟨raw, none⟩]) n =
          (some (s!"Line {n}: Evaluation Error: invalid syntax"), st)) := by
  constructor
  · intro st d n hres hty hexpr
    have hh : handle_declaration st d n =
        .error (s!"Line {n}: Evaluation Error: invalid syntax") := by
      unfold handle_declaration
      rw [hres, hty]
      simp [infer_type, evaluate_expression, hexpr]
    simp only [execute_line, hh]
  · intro st raw n hres
    have hi : printItemOut st ⟨raw, none⟩ n
        = s!"Line {n}: Evaluation Error: invalid syntax" := by
      unfold printItemOut
      rw [hres]
      rfl
    simp only [execute_line, List.map_cons, List.map_nil, hi]
    rfl

/-- C7 witness. -/
theorem C7_eval_error_tagging_witness :
    (get_variable_info initState "x" = none ∧
      execute_line initState (.decl ⟨false, false, none, "x", none⟩) 1
        = (some "Line 1: Error: Line 1: Evaluation Error: invalid syntax", initState)) ∧
    (get_variable_info initState "(" = none ∧
      execute_line initState (.printLine [⟨"(", none⟩]) 2
        = (some "Line 2: Evaluation Error: invalid syntax", initState)) :=
  ⟨⟨rfl, C7_eval_error_tagging.1 initState ⟨false, false, none, "x", none⟩ 1 rfl rfl rfl⟩,
   ⟨rfl, C7_eval_error_tagging.2 initState "(" 2 rfl⟩⟩

/-- C8: no line ends a run early.  The driver loop distributes over
concatenation — the remaining lines always execute, from the state the prefix
left behind, whatever diagnostics the prefix produced; any exception a
declaration handler raises is caught at dispatch and becomes one line-tagged
diagnostic with the state intact; and concretely an unmatched `}` at top
level yields its `Syntax Error` while the following declaration and `print`
still run. -/
theorem C8_no_line_halts_the_run :
    (∀ (xs ys : List SrcLine) (st : KState) (n : Nat),
        interpretLoop st n (xs ++ ys) =
          ((interpretLoop st n xs).1
             ++ (interpretLoop (interpretLoop st n xs).2 (n + xs.length) ys).1,
           (interpretLoop (interpretLoop st n xs).2 (n + xs.length) ys).2)) ∧
    (∀ (st : KState) (d : DeclLine) (n : Nat) (e : String),
        handle_declaration st d n = .error e →
        execute_line st (.decl d) n = (some (s!"Line {n}: Error: " ++ e), st)) ∧
    interpret [.closeBrace, .decl ⟨false, false, none, "x", some (.num 1)⟩,
               .printLine [⟨"x", some (.name "x")⟩]]
      = "Line 1: Syntax Error: Unmatched closing brace '\x7d'.\n1" := by
  refine ⟨?_, ?_, ?_⟩
  · intro xs ys st n
    exact interpretLoop_append xs ys st n
  · intro st d n e h
    simp only [execute_line, h]
  · with_unfolding_all rfl

/-- C8 witness. -/
theorem C8_no_line_halts_the_run_witness :
    handle_declaration initState ⟨false, false, none, "x", none⟩ 1
      = .error "Line 1: Evaluation Error: invalid syntax" ∧
    execute_line initState (.decl ⟨false, false, none, "x", none⟩) 1
      = (some "Line 1: Error: Line 1: Evaluation Error: invalid syntax", initState) :=
  ⟨rfl, C8_no_line_halts_the_run.2.1 initState ⟨false, false, none, "x", none⟩ 1
    "Line 1: Evaluation Error: invalid syntax" rfl⟩


/-- C9 (amended): a whole block `{ private x = e }` leaves the interpreter
state EXACTLY as it was — the closing `}` pops and destroys the local scope
the private declaration bound into (this holds whatever the declaration did,
diagnostics included); and a name that afterwards resolves in NO scope fails
with `Undefined variable` when referenced.  The claim's stronger reading —
that the name never resolves again — requires that no enclosing scope binds
the same (lowercased) name: an outer binding still resolves (see the
counterexample). -/
theorem C9_private_block_scoping :
    (∀ (st : KState) (d : DeclLine) (n : Nat), d.is_private = true →
        (interpretLoop st n [.openBrace, .decl d, .closeBrace]).2 = st) ∧
    (∀ (st : KState) (s : String) (n : Nat),
        get_variable_info st (strLower s) = none →
        strLower s ≠ "true" → strLower s ≠ "false" →
        evaluateAst st n (.name s) = .error ("Undefined variable: " ++ strLower s)) := by
  constructor
  · intro st d n hp
    have hsh := execute_line_decl_state_cases
      ({ st with local_variables_stack := [] :: st.local_variables_stack }) d (n + 1)
    simp only [interpretLoop]
    rcases hsh with h | ⟨ty, v, c, h⟩
    · cases hout : (execute_line
          { st with local_variables_stack := [] :: st.local_variables_stack }
          (.decl d) (n + 1)).1 <;>
        simp only [hout, h, interpretLoop]
    · rw [hp] at h
      cases hout : (execute_line
          { st with local_variables_stack := [] :: st.local_variables_stack }
          (.decl d) (n + 1)).1 <;>
        simp only [hout, h, interpretLoop, assign_variable, if_true]
  · intro st s n h1 h2 h3
    simp only [evaluateAst, h2, h3, if_false, h1]

/-- C9 witness. -/
theorem C9_private_block_scoping_witness :
    (interpretLoop ⟨[("y", ⟨"int", .vInt 7, false⟩)], []⟩ 1
        [.openBrace, .decl ⟨true, false, none, "x", some (.num 1)⟩, .closeBrace]).2
      = ⟨[("y", ⟨"int", .vInt 7, false⟩)], []⟩ ∧
    (get_variable_info initState (strLower "x") = none ∧
      evaluateAst initState 1 (.name "x") = .error ("Undefined variable: " ++ strLower "x")) :=
  ⟨C9_private_block_scoping.1 ⟨[("y", ⟨"int", .vInt 7, false⟩)], []⟩
      ⟨true, false, none, "x", some (.num 1)⟩ 1 rfl,
   rfl,
   C9_private_block_scoping.2 initState "x" 1 rfl (by decide) (by decide)⟩

/-- C10 (amended): identifier references inside expressions are resolved
through their lowercased spelling — two spellings with the same lowercase
form evaluate identically; a lowercased spelling never contains an uppercase
ASCII letter, so a reference can never produce the key of a variable whose
declared name (bound verbatim, last conjunct) contains one — such a variable
is unreachable from every expression, and the reference instead fails with
`Undefined variable` when NO binding carries the lowercased name, or silently
resolves to the binding that does (see the counterexample); a variable whose
name is the lowercased spelling is found under any capitalization. -/
theorem C10_identifier_case_semantics :
    (∀ (s t : String) (st : KState) (n : Nat), strLower s = strLower t →
        evaluateAst st n (.name s) = evaluateAst st n (.name t)) ∧
    (∀ x : String, containsUpper x = true → ∀ s : String, strLower s ≠ x) ∧
    (∀ (st : KState) (s : String) (n : Nat) (vd : VarData),
        get_variable_info st (strLower s) = some vd →
        strLower s ≠ "true" → strLower s ≠ "false" →
        evaluateAst st n (.name s) = .ok vd.value) ∧
    (interpretLoop initState 1
        [.decl ⟨false, false, none, "X", some (.num 2)⟩]).2.global_variables
      = [("X", ⟨"int", .vInt 2, false⟩)] := by
  refine ⟨?_, ?_, ?_, by with_unfolding_all rfl⟩
  · intro s t st n h
    simp only [evaluateAst, h]
  · intro x hx s heq
    rw [← heq, containsUpper_strLower] at hx
    cases hx
  · intro st s n vd h1 h2 h3
    simp only [evaluateAst, h2, h3, if_false, h1]

/-- C10 witness. -/
theorem C10_identifier_case_semantics_witness :
    (strLower "X" = strLower "x" ∧
      evaluateAst initState 1 (.name "X") = evaluateAst initState 1 (.name "x")) ∧
    (containsUpper "Xy" = true ∧ strLower "xY" ≠ "Xy") ∧
    (get_variable_info ⟨[("x", ⟨"int", .vInt 5, false⟩)], []⟩ (strLower "X")
        = some ⟨"int", .vInt 5, false⟩ ∧
      evaluateAst ⟨[("x", ⟨"int", .vInt 5, false⟩)], []⟩ 1 (.name "X")
        = .ok (VarData.mk "int" (.vInt 5) false).value) :=
  ⟨⟨by decide, C10_identifier_case_semantics.1 "X" "x" initState 1 (by decide)⟩,
   ⟨by decide, C10_identifier_case_semantics.2.1 "Xy" (by decide) "xY"⟩,
   ⟨by with_unfolding_all rfl,
    C10_identifier_case_semantics.2.2.1 ⟨[("x", ⟨"int", .vInt 5, false⟩)], []⟩ "X" 1
      ⟨"int", .vInt 5, false⟩ (by with_unfolding_all rfl) (by decide) (by decide)⟩⟩

/-- The shape a successful non-private reassignment leaves the state in:
only the named global binding changes, keeping the given type and const
tags. -/
theorem reassign_global_conclusion (st : KState) (name ty : String) (v : Value)
    (c : Bool) (st' : KState) (h : assign_variable st name ty v false c = st') :
    st' = { st with global_variables := updateA st.global_variables name ⟨ty, v, c⟩ } ∧
    st'.local_variables_stack = st.local_variables_stack ∧
    lookupA st'.global_variables name = some ⟨ty, v, c⟩ ∧
    ∀ k, k ≠ name → lookupA st'.global_variables k = lookupA st.global_variables k := by
  subst h
  refine ⟨by simp [assign_variable], by simp [assign_variable], ?_, ?_⟩
  · simp [assign_variable, lookupA_updateA_self]
  · intro k hk
    simp [assign_variable, lookupA_updateA_ne _ _ _ _ hk]

/-- C1 (amended): a successful reassignment line (name resolves, no
modifiers, no type) always writes through `assign_variable` into the GLOBAL
scope, carrying over the resolved binding's type tag and const flag and
replacing only the value there; every local scope is left untouched and every
other global key keeps its binding.  When the resolved binding itself lives
in the global scope this is the in-place value replacement the claim states;
when it lives in a local scope the local binding's value is NOT replaced and
a global binding is created instead (see the counterexample). -/
theorem C1_reassignment_targets_global (st : KState) (d : DeclLine) (n : Nat)
    (vi : VarData) (st' : KState)
    (hpriv : d.is_private = false) (hmod : d.modifier = false)
    (hty : d.var_type = none)
    (hres : get_variable_info st d.var_name = some vi)
    (hok : handle_declaration st d n = .ok (none, st')) :
    ∃ v', st' = { st with global_variables :=
                    updateA st.global_variables d.var_name ⟨vi.type, v', vi.const⟩ } ∧
      st'.local_variables_stack = st.local_variables_stack ∧
      lookupA st'.global_variables d.var_name = some ⟨vi.type, v', vi.const⟩ ∧
      ∀ k, k ≠ d.var_name →
        lookupA st'.global_variables k = lookupA st.global_variables k := by
  unfold handle_declaration at hok
  rw [hres] at hok
  simp only [hmod, hty, Bool.false_eq_true, if_false, Option.isSome_none] at hok
  repeat' (split at hok)
  all_goals
    first
    | (injection hok with h1
       injection h1 with h1a h1b
       first
       | (rw [hpriv] at h1b
          exact ⟨_, reassign_global_conclusion _ _ _ _ _ _ h1b⟩)
       | cases h1a)
    | injection hok

/-- C1 witness. -/
theorem C1_reassignment_targets_global_witness :
    (get_variable_info ⟨[("x", ⟨"int", .vInt 1, false⟩)], []⟩ "x"
        = some ⟨"int", .vInt 1, false⟩ ∧
      handle_declaration ⟨[("x", ⟨"int", .vInt 1, false⟩)], []⟩
          ⟨false, false, none, "x", some (.num 2)⟩ 1
        = .ok (none, ⟨[("x", ⟨"int", .vInt 2, false⟩)], []⟩)) ∧
    (∃ v', (⟨[("x", ⟨"int", .vInt 2, false⟩)], []⟩ : KState)
        = { (⟨[("x", ⟨"int", .vInt 1, false⟩)], []⟩ : KState) with
              global_variables := updateA [("x", ⟨"int", .vInt 1, false⟩)] "x" ⟨"int", v', false⟩ } ∧
      (⟨[("x", ⟨"int", .vInt 2, false⟩)], []⟩ : KState).local_variables_stack
        = (⟨[("x", ⟨"int", .vInt 1, false⟩)], []⟩ : KState).local_variables_stack ∧
      lookupA (⟨[("x", ⟨"int", .vInt 2, false⟩)], []⟩ : KState).global_variables "x"
        = some ⟨"int", v', false⟩ ∧
      ∀ k, k ≠ "x" →
        lookupA (⟨[("x", ⟨"int", .vInt 2, false⟩)], []⟩ : KState).global_variables k
          = lookupA (⟨[("x", ⟨"int", .vInt 1, false⟩)], []⟩ : KState).global_variables k) :=
  ⟨⟨rfl, by with_unfolding_all rfl⟩,
   C1_reassignment_targets_global ⟨[("x", ⟨"int", .vInt 1, false⟩)], []⟩
     ⟨false, false, none, "x", some (.num 2)⟩ 1 ⟨"int", .vInt 1, false⟩
     ⟨[("x", ⟨"int", .vInt 2, false⟩)], []⟩ rfl rfl rfl rfl
     (by with_unfolding_all rfl)⟩

end KLang
